import Mathlib

/-!  Verification of the Singr Karaoke Connect request/catalog core.

A shallow embedding of the service layer of the repository:
the request lifecycle manager (`RequestService`), the song catalog store
(`SongDbService`), venue and system services, the API-key registry,
refresh-token revocation, and the shared pagination helpers.  Database
tables are modelled as lists of records inside a `Store`; each service
method becomes a function from a store (plus its arguments) to a result
paired with the possibly-updated store.  Thrown service errors become
`Except.error` values; the store component of the result is returned
unchanged exactly when the source throws before performing any write.
-/

namespace Singr

/-- Error taxonomy of the shared `AppError` hierarchy (`packages/shared`),
extended with a `jsError` constructor for low-level JavaScript exceptions
(such as the `SyntaxError` thrown by a failing `BigInt(...)` conversion)
which are not `AppError` instances in the source. -/
inductive AppErr where
  | validation (detail : String)
  | authentication (detail : String)
  | authorization (detail : String)
  | notFound (resource : String)
  | conflict (detail : String)
  | rateLimit (retryAfter : Nat)
  | jsError (detail : String)
deriving DecidableEq

deriving instance DecidableEq for Except

/-- Characters matched by the JavaScript regular-expression class `\s`
(and treated as whitespace by `String.prototype.trim`, `parseInt` and
`BigInt`): ASCII whitespace, NBSP, the Unicode space separators,
line/paragraph separators and the BOM. -/
def jsWhitespace (c : Char) : Bool :=
  c = ' ' || c = '\t' || c = '\n' || c = '\r' || c = '\x0B' || c = '\x0C' ||
  c = '\u00A0' || c = '\u1680' || ('\u2000' ≤ c && c ≤ '\u200A') ||
  c = '\u2028' || c = '\u2029' || c = '\u202F' || c = '\u205F' ||
  c = '\u3000' || c = '\uFEFF'

/-- Numeric value of a list of decimal digit characters. -/
def decDigitsVal (l : List Char) : Nat :=
  l.foldl (fun acc c => acc * 10 + (c.toNat - '0'.toNat)) 0

/-- The longest leading run of decimal digits, as a number; `none` when the
list does not start with a digit (JavaScript `parseInt` yields `NaN`). -/
def parseLeadingDigits (l : List Char) : Option Nat :=
  let ds := l.takeWhile Char.isDigit
  if ds.isEmpty then none else some (decDigitsVal ds)

/-- JavaScript `parseInt(s, 10)`: skip leading whitespace, optional sign,
then the longest prefix of decimal digits; `none` models `NaN`. -/
def parseIntJS (s : String) : Option Int :=
  match s.toList.dropWhile jsWhitespace with
  | '-' :: rest => (parseLeadingDigits rest).map (fun n => -(n : Int))
  | '+' :: rest => (parseLeadingDigits rest).map (fun n => (n : Int))
  | rest => (parseLeadingDigits rest).map (fun n => (n : Int))

/-- Value of an entire list of decimal digits, requiring every character to
be a digit and the list to be nonempty. -/
def allDecDigits (l : List Char) : Option Nat :=
  if l.isEmpty then none
  else if l.all Char.isDigit then some (decDigitsVal l) else none

/-- Hexadecimal digit test. -/
def isHexDigitJS (c : Char) : Bool :=
  c.isDigit || ('a' ≤ c && c ≤ 'f') || ('A' ≤ c && c ≤ 'F')

/-- Hexadecimal digit value. -/
def hexDigitVal (c : Char) : Nat :=
  if c.isDigit then c.toNat - '0'.toNat
  else if 'a' ≤ c && c ≤ 'f' then c.toNat - 'a'.toNat + 10
  else c.toNat - 'A'.toNat + 10

/-- Value of an entire list of hexadecimal digits. -/
def allHexDigits (l : List Char) : Option Nat :=
  if l.isEmpty then none
  else if l.all isHexDigitJS then
    some (l.foldl (fun acc c => acc * 16 + hexDigitVal c) 0)
  else none

/-- Value of an entire list of octal digits. -/
def allOctDigits (l : List Char) : Option Nat :=
  if l.isEmpty then none
  else if l.all (fun c => '0' ≤ c && c ≤ '7') then
    some (l.foldl (fun acc c => acc * 8 + (c.toNat - '0'.toNat)) 0)
  else none

/-- Value of an entire list of binary digits. -/
def allBinDigits (l : List Char) : Option Nat :=
  if l.isEmpty then none
  else if l.all (fun c => c = '0' || c = '1') then
    some (l.foldl (fun acc c => acc * 2 + (c.toNat - '0'.toNat)) 0)
  else none

/-- JavaScript `BigInt(s)` on a string: trim whitespace; an empty remainder
is `0`; otherwise the whole remainder must be a decimal literal with an
optional sign, or an unsigned `0x`/`0o`/`0b` literal.  `none` models the
thrown `SyntaxError`. -/
def parseBigIntJS (s : String) : Option Int :=
  let cs := ((s.toList.dropWhile jsWhitespace).reverse.dropWhile jsWhitespace).reverse
  match cs with
  | [] => some 0
  | '+' :: rest => (allDecDigits rest).map (fun n => (n : Int))
  | '-' :: rest => (allDecDigits rest).map (fun n => -(n : Int))
  | '0' :: c :: rest =>
    if c = 'x' || c = 'X' then (allHexDigits rest).map (fun n => (n : Int))
    else if c = 'o' || c = 'O' then (allOctDigits rest).map (fun n => (n : Int))
    else if c = 'b' || c = 'B' then (allBinDigits rest).map (fun n => (n : Int))
    else (allDecDigits ('0' :: c :: rest)).map (fun n => (n : Int))
  | rest => (allDecDigits rest).map (fun n => (n : Int))

/-- The message of the `SyntaxError` raised by `BigInt(s)` on a malformed
string. -/
def bigIntErrorMsg (s : String) : String :=
  "Cannot convert " ++ s ++ " to a BigInt"

/-- One pass of the JavaScript `replace(/\s+/g, ' ')`: every maximal run of
whitespace characters becomes a single space.  The boolean argument records
whether the previous kept character closed a whitespace run. -/
def collapseWsAux : Bool → List Char → List Char
  | _, [] => []
  | prevWs, c :: rest =>
    if jsWhitespace c then
      if prevWs then collapseWsAux true rest
      else ' ' :: collapseWsAux true rest
    else c :: collapseWsAux false rest

/-- `replace(/\s+/g, ' ')` over a character list. -/
def collapseWs (l : List Char) : List Char := collapseWsAux false l

/-- JavaScript `String.prototype.trim`: drop whitespace at both ends. -/
def trimJS (l : List Char) : List Char :=
  ((l.dropWhile jsWhitespace).reverse.dropWhile jsWhitespace).reverse

/-- `normalizeSongName` from `apps/api/src/services/songdb.service.ts`:
lowercase (ASCII `Char.toLower`, matching `toLowerCase` on the alphabet the
kept-character class `[a-z0-9\s]` can retain), delete every character
outside `[a-z0-9\s]`, collapse whitespace runs to single spaces, trim. -/
def normalizeSongName (text : String) : String :=
  let lowered := text.toList.map Char.toLower
  let kept := lowered.filter
    (fun c => ('a' ≤ c && c ≤ 'z') || ('0' ≤ c && c ≤ '9') || jsWhitespace c)
  String.mk (trimJS (collapseWs kept))

/-! ## Data model

Rows of the relevant Prisma tables.  `BigInt` columns become `Int`,
timestamps become `Nat`, nullable columns become `Option`. -/

/-- A row of the `venue` table (the columns the services touch). -/
structure Venue where
  id : String
  customerProfileId : String
  openkjVenueId : Int
  name : String
  urlName : String
  address : String
  city : String
  state : String
  postalCode : String
  country : String
  phoneNumber : Option String
  website : Option String
  acceptingRequests : Bool
deriving DecidableEq

/-- A row of the `system` table.  `configuration` is a JSON object,
modelled as an association list of key/value pairs. -/
structure SystemRec where
  id : String
  customerProfileId : String
  openkjSystemId : Int
  name : String
  configuration : List (String × String)
deriving DecidableEq

/-- A row of the `songDb` table. -/
structure SongDbEntry where
  id : Int
  customerProfileId : String
  openkjSystemId : Int
  artist : String
  title : String
  combined : String
  normalizedCombined : String
deriving DecidableEq

/-- A row of the `request` table. -/
structure Request where
  id : Int
  venueId : String
  singerProfileId : Option String
  submittedByUserId : Option String
  artist : String
  title : String
  keyChange : Int
  notes : Option String
  processed : Bool
  processedAt : Option Nat
  requestedAt : Nat
deriving DecidableEq

/-- A row of the `singerRequestHistory` table. -/
structure HistoryEntry where
  singerProfileId : String
  venueId : String
  artist : String
  title : String
  keyChange : Int
  songFingerprint : String
deriving DecidableEq

/-- The event types of `WebSocketMessage` in `apps/api/src/types/auth.ts`. -/
inductive WsEventType where
  | requestCreated
  | requestUpdated
  | requestDeleted
  | venueUpdated
deriving DecidableEq

/-- A message handed to the push-notification collaborator
(`WebSocketService.broadcastToVenue`), scoped to a venue. -/
structure WsMessage where
  type : WsEventType
  venueId : String
deriving DecidableEq

/-- The world the services act on: the database tables, the outbox of
messages sent to the push-notification collaborator (`events`, appended to
by any `broadcastToVenue` call site), a fresh-id source for
autoincrement/BigInt primary keys, and the current clock (`new Date()`). -/
structure Store where
  venues : List Venue
  systems : List SystemRec
  songs : List SongDbEntry
  requests : List Request
  history : List HistoryEntry
  events : List WsMessage
  nextId : Int
  now : Nat
deriving DecidableEq

/-! ## Input shapes (zod schemas and service interfaces) -/

/-- Argument of `RequestService.createRequest`. -/
structure CreateRequestData where
  venueId : String
  singerProfileId : Option String
  submittedByUserId : Option String
  artist : String
  title : String
  keyChange : Option Int
  notes : Option String
deriving DecidableEq

/-- Argument of `RequestService.updateRequest` (`updateRequestSchema`):
both fields optional, absence meaning the field is not updated. -/
structure UpdateRequestData where
  processed : Option Bool
  notes : Option String
deriving DecidableEq

/-- `UpdateVenueInput` (`updateVenueSchema`); `phoneNumber` and `website`
are also nullable, so their updates are `Option (Option _)`: outer `none`
is `undefined` (leave unchanged), `some none` is an explicit `null`. -/
structure UpdateVenueInput where
  name : Option String
  address : Option String
  city : Option String
  state : Option String
  postalCode : Option String
  country : Option String
  phoneNumber : Option (Option String)
  website : Option (Option String)
  acceptingRequests : Option Bool
deriving DecidableEq

/-- `UpdateSystemInput` from `system.service.ts`. -/
structure UpdateSystemInput where
  name : Option String
  configuration : Option (List (String × String))
deriving DecidableEq

/-- `ImportSongInput` from `songdb.service.ts`. -/
structure ImportSongInput where
  artist : String
  title : String
deriving DecidableEq

/-- `BulkImportInput` from `songdb.service.ts`. -/
structure BulkImportInput where
  openkjSystemId : Int
  songs : List ImportSongInput
deriving DecidableEq

/-- The `{imported, skipped, errors}` result of a bulk import. -/
structure ImportResult where
  imported : Nat
  skipped : Nat
  errors : Nat
deriving DecidableEq

/-! ## VenueService (`apps/api/src/services/venue.service.ts`) -/

/-- `VenueService.getVenue`: `findFirst` on id and owning tenant; absence —
including ownership by another tenant — throws `NotFoundError('Venue')`. -/
def getVenue (st : Store) (venueId customerProfileId : String) :
    Except AppErr Venue × Store :=
  match st.venues.find?
      (fun v => v.id == venueId && v.customerProfileId == customerProfileId) with
  | none => (.error (.notFound "Venue"), st)
  | some venue => (.ok venue, st)

/-- The Prisma `update` semantics for an optional input field of a
non-nullable column: `undefined` leaves the column unchanged. -/
def updField (input : Option α) (old : α) : α := input.getD old

/-- The Prisma `update` semantics for an optional, nullable input field:
`undefined` leaves the column, `null` clears it, a value sets it. -/
def updNullableField (input : Option (Option α)) (old : Option α) : Option α :=
  input.getD old

/-- `VenueService.updateVenue`: ownership check, then a Prisma `update`
passing every input field through (absent fields are left unchanged). -/
def updateVenue (st : Store) (venueId customerProfileId : String)
    (data : UpdateVenueInput) : Except AppErr Venue × Store :=
  match st.venues.find?
      (fun v => v.id == venueId && v.customerProfileId == customerProfileId) with
  | none => (.error (.notFound "Venue"), st)
  | some venue =>
    let updated : Venue :=
      { venue with
        name := updField data.name venue.name
        address := updField data.address venue.address
        city := updField data.city venue.city
        state := updField data.state venue.state
        postalCode := updField data.postalCode venue.postalCode
        country := updField data.country venue.country
        phoneNumber := updNullableField data.phoneNumber venue.phoneNumber
        website := updNullableField data.website venue.website
        acceptingRequests := updField data.acceptingRequests venue.acceptingRequests }
    (.ok updated,
     { st with venues := st.venues.map (fun v => if v.id == venueId then updated else v) })

/-- `VenueService.deleteVenue`: ownership check, then a hard delete. -/
def deleteVenue (st : Store) (venueId customerProfileId : String) :
    Except AppErr Unit × Store :=
  match st.venues.find?
      (fun v => v.id == venueId && v.customerProfileId == customerProfileId) with
  | none => (.error (.notFound "Venue"), st)
  | some _ =>
    (.ok (), { st with venues := st.venues.filter (fun v => v.id != venueId) })

/-! ## SystemService (`apps/api/src/services/system.service.ts`) -/

/-- `prisma.songDb.count` over a tenant and legacy system id. -/
def songCount (st : Store) (customerProfileId : String) (openkjSystemId : Int) : Nat :=
  (st.songs.filter
    (fun s => s.customerProfileId == customerProfileId &&
              s.openkjSystemId == openkjSystemId)).length

/-- The view of a System returned by get/update: the row plus its song
count. -/
structure SystemView where
  id : String
  openkjSystemId : Int
  name : String
  configuration : List (String × String)
  songCount : Nat
deriving DecidableEq

/-- JavaScript object spread merge of two JSON objects: keys of the old
object (overridden by the update where present) followed by the update
keys that are new. -/
def spreadMerge (old upd : List (String × String)) : List (String × String) :=
  old.map (fun p =>
    match upd.find? (fun q => q.1 == p.1) with
    | some q => (p.1, q.2)
    | none => p) ++
  upd.filter (fun q => old.all (fun p => p.1 != q.1))

/-- `SystemService.getSystem`. -/
def getSystem (st : Store) (systemId customerProfileId : String) :
    Except AppErr SystemView × Store :=
  match st.systems.find?
      (fun s => s.id == systemId && s.customerProfileId == customerProfileId) with
  | none => (.error (.notFound "System"), st)
  | some system =>
    (.ok { id := system.id, openkjSystemId := system.openkjSystemId,
           name := system.name, configuration := system.configuration,
           songCount := songCount st customerProfileId system.openkjSystemId }, st)

/-- `SystemService.updateSystem`: ownership check, then an update whose
`configuration` merges the old object with the input by spread. -/
def updateSystem (st : Store) (systemId customerProfileId : String)
    (input : UpdateSystemInput) : Except AppErr SystemView × Store :=
  match st.systems.find?
      (fun s => s.id == systemId && s.customerProfileId == customerProfileId) with
  | none => (.error (.notFound "System"), st)
  | some system =>
    let updated : SystemRec :=
      { system with
        name := updField input.name system.name
        configuration :=
          match input.configuration with
          | some c => spreadMerge system.configuration c
          | none => system.configuration }
    let st' : Store :=
      { st with systems := st.systems.map (fun s => if s.id == systemId then updated else s) }
    (.ok { id := updated.id, openkjSystemId := updated.openkjSystemId,
           name := updated.name, configuration := updated.configuration,
           songCount := songCount st' customerProfileId updated.openkjSystemId }, st')

/-- `SystemService.deleteSystem`: ownership check, then a conflict error if
the system still owns songs, else a hard delete. -/
def deleteSystem (st : Store) (systemId customerProfileId : String) :
    Except AppErr Unit × Store :=
  match st.systems.find?
      (fun s => s.id == systemId && s.customerProfileId == customerProfileId) with
  | none => (.error (.notFound "System"), st)
  | some system =>
    let count := songCount st customerProfileId system.openkjSystemId
    if count > 0 then
      (.error (.conflict ("Cannot delete system with " ++ toString count ++
        " songs. Please delete all songs first.")), st)
    else
      (.ok (), { st with systems := st.systems.filter (fun s => s.id != systemId) })

/-! ## SongDbService (`apps/api/src/services/songdb.service.ts`) -/

/-- `SongDbService.getSong`: the `BigInt(songId)` conversion is evaluated
while building the `findFirst` argument, so a malformed id raises before
any lookup; otherwise `findFirst` on id and tenant. -/
def getSong (st : Store) (songId customerProfileId : String) :
    Except AppErr SongDbEntry × Store :=
  match parseBigIntJS songId with
  | none => (.error (.jsError (bigIntErrorMsg songId)), st)
  | some sid =>
    match st.songs.find?
        (fun s => s.id == sid && s.customerProfileId == customerProfileId) with
    | none => (.error (.notFound "Song"), st)
    | some song => (.ok song, st)

/-- `SongDbService.deleteSong`. -/
def deleteSong (st : Store) (songId customerProfileId : String) :
    Except AppErr Unit × Store :=
  match parseBigIntJS songId with
  | none => (.error (.jsError (bigIntErrorMsg songId)), st)
  | some sid =>
    match st.songs.find?
        (fun s => s.id == sid && s.customerProfileId == customerProfileId) with
    | none => (.error (.notFound "Song"), st)
    | some _ =>
      (.ok (), { st with songs := st.songs.filter (fun s => s.id != sid) })

/-- One iteration of the inner import loop of
`SongDbService.bulkImportSongs`: compute `combined` and
`normalizedCombined`, skip when an entry with the same normalized form
already exists in the (tenant, system), otherwise insert and count it as
imported.  The accumulator is the store plus the
`(imported, skipped, errors)` counters. -/
def importOne (customerProfileId : String) (openkjSystemId : Int)
    (acc : Store × Nat × Nat × Nat) (song : ImportSongInput) :
    Store × Nat × Nat × Nat :=
  let (st, imported, skipped, errors) := acc
  let combined := song.artist ++ " - " ++ song.title
  let normalizedCombined := normalizeSongName combined
  match st.songs.find?
      (fun s => s.customerProfileId == customerProfileId &&
                s.openkjSystemId == openkjSystemId &&
                s.normalizedCombined == normalizedCombined) with
  | some _ => (st, imported, skipped + 1, errors)
  | none =>
    ({ st with
        songs := st.songs ++
          [{ id := st.nextId, customerProfileId := customerProfileId,
             openkjSystemId := openkjSystemId, artist := song.artist,
             title := song.title, combined := combined,
             normalizedCombined := normalizedCombined }]
        nextId := st.nextId + 1 },
     imported + 1, skipped, errors)

/-- The batching of the import loop (`for (let i = 0; i < songs.length;
i += batchSize) { const batch = songs.slice(i, i + batchSize); ... }`)
with the source's `batchSize = 100`. -/
def toBatches (l : List α) : List (List α) :=
  if l.isEmpty then [] else l.take 100 :: toBatches (l.drop 100)
termination_by l.length
decreasing_by
  simp only [List.length_drop]
  cases l with
  | nil => simp_all
  | cons x xs => simp; omega

/-- `SongDbService.bulkImportSongs`: verify the target system belongs to
the tenant (by legacy system id), then run the batched sequential import
loop. -/
def bulkImportSongs (st : Store) (customerProfileId : String)
    (input : BulkImportInput) : Except AppErr ImportResult × Store :=
  match st.systems.find?
      (fun s => s.customerProfileId == customerProfileId &&
                s.openkjSystemId == input.openkjSystemId) with
  | none => (.error (.notFound "System"), st)
  | some _ =>
    let r := (toBatches input.songs).foldl
      (fun acc batch =>
        batch.foldl (importOne customerProfileId input.openkjSystemId) acc)
      (st, 0, 0, 0)
    (.ok { imported := r.2.1, skipped := r.2.2.1, errors := r.2.2.2 }, r.1)

/-! ## RequestService (`src/unnamed/part_007`) -/

/-- `RequestService.createRequest`: the venue must exist
(`findUnique` by id, else `NotFoundError`) and be accepting requests (else
`AuthorizationError`); the request row is created with `processed=false`,
and an authenticated singer additionally gets a history entry with a
lowercased `artist:title` fingerprint. -/
def createRequest (st : Store) (data : CreateRequestData) :
    Except AppErr Request × Store :=
  match st.venues.find? (fun v => v.id == data.venueId) with
  | none => (.error (.notFound "Venue"), st)
  | some venue =>
    if !venue.acceptingRequests then
      (.error (.authorization "Venue is not accepting requests"), st)
    else
      let request : Request :=
        { id := st.nextId, venueId := data.venueId,
          singerProfileId := data.singerProfileId,
          submittedByUserId := data.submittedByUserId,
          artist := data.artist, title := data.title,
          keyChange := data.keyChange.getD 0, notes := data.notes,
          processed := false, processedAt := none, requestedAt := st.now }
      let st1 : Store :=
        { st with requests := st.requests ++ [request], nextId := st.nextId + 1 }
      match data.singerProfileId with
      | some spid =>
        let entry : HistoryEntry :=
          { singerProfileId := spid, venueId := data.venueId,
            artist := data.artist, title := data.title,
            keyChange := data.keyChange.getD 0,
            songFingerprint := (data.artist ++ ":" ++ data.title).toLower }
        (.ok request, { st1 with history := st1.history ++ [entry] })
      | none => (.ok request, st1)

/-- `RequestService.updateRequest`: venue-ownership check, then a request
lookup by `BigInt(requestId)` and venue, then a Prisma `update` that passes
`processed` and `notes` through unchanged-when-absent, but computes
`processedAt` as `data.processed ? new Date() : null` — an absent
`processed` is falsy, so `processedAt` is set to `null` even then. -/
def updateRequest (st : Store) (requestId venueId customerProfileId : String)
    (data : UpdateRequestData) : Except AppErr Request × Store :=
  match st.venues.find?
      (fun v => v.id == venueId && v.customerProfileId == customerProfileId) with
  | none => (.error (.notFound "Venue"), st)
  | some _ =>
    match parseBigIntJS requestId with
    | none => (.error (.jsError (bigIntErrorMsg requestId)), st)
    | some rid =>
      match st.requests.find? (fun r => r.id == rid && r.venueId == venueId) with
      | none => (.error (.notFound "Request"), st)
      | some request =>
        let updated : Request :=
          { request with
            processed := updField data.processed request.processed
            notes := updField (data.notes.map some) request.notes
            processedAt := if data.processed == some true then some st.now else none }
        (.ok updated,
         { st with requests := st.requests.map (fun r => if r.id == rid then updated else r) })

/-- `RequestService.deleteRequest`: venue-ownership check, request lookup
by `BigInt(requestId)` and venue, then a hard delete. -/
def deleteRequest (st : Store) (requestId venueId customerProfileId : String) :
    Except AppErr Unit × Store :=
  match st.venues.find?
      (fun v => v.id == venueId && v.customerProfileId == customerProfileId) with
  | none => (.error (.notFound "Venue"), st)
  | some _ =>
    match parseBigIntJS requestId with
    | none => (.error (.jsError (bigIntErrorMsg requestId)), st)
    | some rid =>
      match st.requests.find? (fun r => r.id == rid && r.venueId == venueId) with
      | none => (.error (.notFound "Request"), st)
      | some _ =>
        (.ok (), { st with requests := st.requests.filter (fun r => r.id != rid) })

/-! ## Pagination helpers (`packages/shared/src/utils/pagination.ts`) -/

/-- The raw query-string values seen by `parsePaginationParams`; `none` is
an absent parameter. -/
structure QueryShape where
  limit : Option String
  offset : Option String
  cursor : Option String
deriving DecidableEq

/-- The parsed `PaginationParams`.  `limit` and `offset` are `Option Int`
with `none` modelling the JavaScript `NaN` a non-numeric input produces. -/
structure PaginationParams where
  limit : Option Int
  offset : Option Int
  cursor : Option String
deriving DecidableEq

/-- The `PaginationInfo` response shape. -/
structure PaginationInfo where
  total : Option Nat
  limit : Int
  offset : Int
  hasMore : Bool
  nextCursor : Option String
deriving DecidableEq

/-- JavaScript `value || dflt` on a possibly-absent string: `undefined` and
the empty string are falsy. -/
def jsOrDefault (v : Option String) (dflt : String) : String :=
  match v with
  | none => dflt
  | some s => if s = "" then dflt else s

/-- `Math.max(a, x)` where `x` may be `NaN`: any `NaN` operand wins. -/
def jsMaxNaN (a : Int) (x : Option Int) : Option Int := x.map (fun v => max a v)

/-- `Math.min(x, b)` where `x` may be `NaN`. -/
def jsMinNaN (x : Option Int) (b : Int) : Option Int := x.map (fun v => min v b)

/-- `parsePaginationParams`: `limit = min(max(1, parseInt(query.limit || 20,
10)), 100)`, `offset = max(0, parseInt(query.offset || 0, 10))`, `cursor`
passed through when truthy. -/
def parsePaginationParams (query : QueryShape) : PaginationParams :=
  { limit := jsMinNaN (jsMaxNaN 1 (parseIntJS (jsOrDefault query.limit "20"))) 100
    offset := jsMaxNaN 0 (parseIntJS (jsOrDefault query.offset "0"))
    cursor :=
      match query.cursor with
      | none => none
      | some s => if s = "" then none else some s }

/-- `createPaginationInfo`: `hasMore = (dataLength === limit)` and
`nextCursor = hasMore ? String(offset + limit) : null`. -/
def createPaginationInfo (total : Option Nat) (limit offset : Int)
    (dataLength : Nat) : PaginationInfo :=
  { total := total, limit := limit, offset := offset,
    hasMore := (dataLength : Int) == limit,
    nextCursor :=
      if (dataLength : Int) == limit then some (toString (offset + limit)) else none }

/-! ## RefreshTokenService (`packages/auth/src/refresh-token.ts`)

The Redis client is modelled by the outcome of the one call each method
makes: a `get` returning `Except` of an optional value, a `setex` returning
`Except` of unit.  A rejected promise is the `error` case. -/

/-- The denylist key for a JWT id. -/
def revocationKey (jti : String) : String := "revoked:" ++ jti

/-- `RefreshTokenService.isJTIRevoked`: reads the denylist key and compares
with `'1'`; a Redis failure is caught and reported as not revoked (the
check fails open). -/
def isJTIRevoked (redisGet : String → Except String (Option String))
    (jti : String) : Bool :=
  match redisGet (revocationKey jti) with
  | .ok result => result == some "1"
  | .error _ => false

/-- `RefreshTokenService.revokeToken`: writes the denylist key with the
remaining TTL; a Redis failure is rethrown as
`Error('Failed to revoke token')`. -/
def revokeToken (redisSetex : String → Nat → String → Except String Unit)
    (jti : String) (expirySeconds : Nat) : Except String Unit :=
  match redisSetex (revocationKey jti) expirySeconds "1" with
  | .ok _ => .ok ()
  | .error _ => .error "Failed to revoke token"

/-! ## ApiKeyService (`apps/api/src/services/apikey.service.ts`)

The SHA-256 digest and the `randomBytes` entropy cannot be computed inside
a shallow embedding, so the digest is an explicit function parameter `sha`
and each key creation carries the base64url-encoded random material it was
generated from. -/

/-- The fixed plaintext marker (`API_KEY_PREFIX = 'sk_'`). -/
def apiKeyMarker : String := "sk_"

/-- A row of the `apiKey` table. -/
structure ApiKeyRec where
  id : String
  customerProfileId : String
  createdByUserId : String
  description : String
  apiKeyHash : String
  status : String
  lastUsedAt : Option Nat
  revokedAt : Option Nat
  createdAt : Nat
deriving DecidableEq

/-- The `{key, hash, prefix}` triple produced by
`ApiKeyService.generateApiKey` (the display part is the first 7 characters
of the random portion). -/
structure GeneratedKey where
  key : String
  hash : String
  display : String
deriving DecidableEq

/-- `ApiKeyService.generateApiKey`, with the random 32-byte base64url
string supplied as `randomKey`. -/
def generateApiKey (sha : String → String) (randomKey : String) : GeneratedKey :=
  { key := apiKeyMarker ++ randomKey
    hash := sha (apiKeyMarker ++ randomKey)
    display := randomKey.take 7 }

/-- The creation response: the plaintext key appears here and nowhere in
the stored row. -/
structure CreatedApiKey where
  id : String
  key : String
  description : String
  status : String
  createdAt : Nat
deriving DecidableEq

/-- `ApiKeyService.createApiKey`: persist the hash with status `active` and
return the plaintext once. -/
def createApiKey (sha : String → String) (keys : List ApiKeyRec)
    (customerProfileId description createdByUserId freshId randomKey : String)
    (now : Nat) : CreatedApiKey × List ApiKeyRec :=
  let generated := generateApiKey sha randomKey
  let row : ApiKeyRec :=
    { id := freshId, customerProfileId := customerProfileId,
      createdByUserId := createdByUserId, description := description,
      apiKeyHash := generated.hash, status := "active",
      lastUsedAt := none, revokedAt := none, createdAt := now }
  ({ id := freshId, key := generated.key, description := description,
     status := "active", createdAt := now }, keys ++ [row])

/-- `ApiKeyService.revokeApiKey`: ownership check (`findFirst` on id and
tenant, else `NotFoundError`), then set status `revoked` with a
timestamp. -/
def revokeApiKey (keys : List ApiKeyRec) (apiKeyId customerProfileId : String)
    (now : Nat) : Except AppErr Unit × List ApiKeyRec :=
  match keys.find?
      (fun k => k.id == apiKeyId && k.customerProfileId == customerProfileId) with
  | none => (.error (.notFound "API Key"), keys)
  | some _ =>
    (.ok (), keys.map (fun k =>
      if k.id == apiKeyId then { k with status := "revoked", revokedAt := some now } else k))

/-- The `{valid, customerProfileId?, apiKeyId?}` verification result. -/
structure VerifyResult where
  valid : Bool
  customerProfileId : Option String
  apiKeyId : Option String
deriving DecidableEq

/-- `ApiKeyService.verifyApiKey`: digest the candidate, look up a stored
hash with status `active`; on a hit update `lastUsedAt`.  The function is
total — every input, however malformed, yields a result value. -/
def verifyApiKey (sha : String → String) (keys : List ApiKeyRec)
    (key : String) (now : Nat) : VerifyResult × List ApiKeyRec :=
  let hash := sha key
  match keys.find? (fun k => k.apiKeyHash == hash && k.status == "active") with
  | none => ({ valid := false, customerProfileId := none, apiKeyId := none }, keys)
  | some found =>
    ({ valid := true, customerProfileId := some found.customerProfileId,
       apiKeyId := some found.id },
     keys.map (fun k => if k.id == found.id then { k with lastUsedAt := some now } else k))

/-- The operations the API-key registry exposes; `read` stands for the
read-only `listApiKeys`/`getApiKey`. -/
inductive ApiKeyOp where
  | create (customerProfileId description createdByUserId freshId randomKey : String) (now : Nat)
  | revoke (apiKeyId customerProfileId : String) (now : Nat)
  | verify (candidate : String) (now : Nat)
  | read
deriving DecidableEq

/-- The state effect of one API-key operation. -/
def applyApiKeyOp (sha : String → String) (keys : List ApiKeyRec) :
    ApiKeyOp → List ApiKeyRec
  | .create cp d u fid rk now => (createApiKey sha keys cp d u fid rk now).2
  | .revoke kid cp now => (revokeApiKey keys kid cp now).2
  | .verify cand now => (verifyApiKey sha keys cand now).2
  | .read => keys

/-- The state effect of a sequence of API-key operations. -/
def applyApiKeyOps (sha : String → String) (keys : List ApiKeyRec)
    (ops : List ApiKeyOp) : List ApiKeyRec :=
  ops.foldl (applyApiKeyOp sha) keys

/-- An operation whose key creation (if any) generates a hash other than
`h` — with fresh 256-bit entropy and a collision-free digest this is how
every later creation relates to an existing key's hash. -/
def opAvoidsHash (sha : String → String) (h : String) : ApiKeyOp → Bool
  | .create _ _ _ _ rk _ => sha (apiKeyMarker ++ rk) != h
  | _ => true

/-- No stored key with hash `h` is active. -/
def noActiveHash (h : String) (keys : List ApiKeyRec) : Prop :=
  ∀ k ∈ keys, k.apiKeyHash = h → k.status ≠ "active"

/-! ## Helper lemmas -/

/-- Append on the left of a failing `find?` is transparent. -/
theorem find?_append_of_none {α : Type} {p : α → Bool} {l₁ l₂ : List α}
    (h : l₁.find? p = none) : (l₁ ++ l₂).find? p = l₂.find? p := by
  induction l₁ with
  | nil => simp
  | cons x xs ih =>
    rw [List.cons_append]
    cases hp : p x with
    | true => simp [List.find?, hp] at h
    | false =>
      simp only [List.find?, hp] at h ⊢
      exact ih h

/-- Folding batch-by-batch is folding the underlying list: the batching of
the bulk-import loop has no semantic content. -/
theorem foldl_toBatches {α β : Type} (f : β → α → β) :
    ∀ n (l : List α), l.length ≤ n → ∀ init : β,
      (toBatches l).foldl (fun acc batch => batch.foldl f acc) init = l.foldl f init := by
  intro n
  induction n with
  | zero =>
    intro l hl init
    have hnil : l = [] := List.eq_nil_of_length_eq_zero (Nat.le_zero.mp hl)
    subst hnil
    rw [toBatches]
    simp
  | succ n ih =>
    intro l hl init
    rw [toBatches]
    by_cases hemp : l.isEmpty
    · have hnil : l = [] := List.isEmpty_iff.mp hemp
      subst hnil
      simp
    · rw [if_neg hemp, List.foldl_cons]
      have hlen : (l.drop 100).length ≤ n := by
        have hpos : 0 < l.length := by
          cases l with
          | nil => simp at hemp
          | cons x xs => simp
        simp only [List.length_drop]
        omega
      show (toBatches (l.drop 100)).foldl (fun acc batch => batch.foldl f acc)
          ((l.take 100).foldl f init) = l.foldl f init
      rw [ih (l.drop 100) hlen ((l.take 100).foldl f init)]
      rw [← List.foldl_append]
      rw [List.take_append_drop]

/-- `applyApiKeyOp` only ever appends rows whose hash the operation
controls, flips statuses to `revoked`, or touches `lastUsedAt`; it never
re-activates a hash it avoids. -/
theorem noActiveHash_applyOp {sha : String → String} {h : String}
    {keys : List ApiKeyRec} {op : ApiKeyOp}
    (hop : opAvoidsHash sha h op = true) (hk : noActiveHash h keys) :
    noActiveHash h (applyApiKeyOp sha keys op) := by
  cases op with
  | create cp d u fid rk now =>
    intro k hkmem hhash
    simp only [applyApiKeyOp, createApiKey, List.mem_append, List.mem_singleton] at hkmem
    rcases hkmem with hmem | hrow
    · exact hk k hmem hhash
    · subst hrow
      simp only [opAvoidsHash, bne_iff_ne, ne_eq] at hop
      simp only [generateApiKey] at hhash
      exact absurd hhash hop
  | revoke kid cp now =>
    intro k hkmem hhash
    simp only [applyApiKeyOp, revokeApiKey] at hkmem
    cases hfind : keys.find?
        (fun k => k.id == kid && k.customerProfileId == cp) with
    | none =>
      rw [hfind] at hkmem
      exact hk k hkmem hhash
    | some found =>
      rw [hfind] at hkmem
      simp only [List.mem_map] at hkmem
      obtain ⟨k₀, hk₀mem, hk₀eq⟩ := hkmem
      by_cases hid : (k₀.id == kid) = true
      · rw [if_pos hid] at hk₀eq
        subst hk₀eq
        intro hst
        simp at hst
      · rw [if_neg hid] at hk₀eq
        subst hk₀eq
        exact hk k₀ hk₀mem hhash
  | verify cand now =>
    intro k hkmem hhash
    simp only [applyApiKeyOp, verifyApiKey] at hkmem
    cases hfind : keys.find?
        (fun k => k.apiKeyHash == sha cand && k.status == "active") with
    | none =>
      rw [hfind] at hkmem
      exact hk k hkmem hhash
    | some found =>
      rw [hfind] at hkmem
      simp only [List.mem_map] at hkmem
      obtain ⟨k₀, hk₀mem, hk₀eq⟩ := hkmem
      by_cases hid : (k₀.id == found.id) = true
      · rw [if_pos hid] at hk₀eq
        subst hk₀eq
        exact hk k₀ hk₀mem hhash
      · rw [if_neg hid] at hk₀eq
        subst hk₀eq
        exact hk k₀ hk₀mem hhash
  | read =>
    exact hk

/-- `noActiveHash` is preserved by any sequence of registry operations
that avoid the hash. -/
theorem noActiveHash_applyOps {sha : String → String} {h : String}
    {ops : List ApiKeyOp}
    (hops : ∀ op ∈ ops, opAvoidsHash sha h op = true) :
    ∀ {keys : List ApiKeyRec}, noActiveHash h keys →
      noActiveHash h (applyApiKeyOps sha keys ops) := by
  induction ops with
  | nil => intro keys hk; exact hk
  | cons op rest ih =>
    intro keys hk
    have hstep : noActiveHash h (applyApiKeyOp sha keys op) :=
      noActiveHash_applyOp (hops op (List.mem_cons_self op rest)) hk
    have := ih (fun o ho => hops o (List.mem_cons_of_mem op ho)) hstep
    simpa [applyApiKeyOps, List.foldl_cons] using this

/-- Verification misses every hash with no active row. -/
theorem verify_false_of_noActiveHash {sha : String → String}
    {keys : List ApiKeyRec} {plaintext : String} {now : Nat}
    (hk : noActiveHash (sha plaintext) keys) :
    (verifyApiKey sha keys plaintext now).1.valid = false := by
  have hfind : keys.find?
      (fun k => k.apiKeyHash == sha plaintext && k.status == "active") = none := by
    rw [List.find?_eq_none]
    intro k hkmem
    simp only [Bool.and_eq_true, beq_iff_eq, not_and]
    intro hhash hst
    exact hk k hkmem hhash hst
  simp [verifyApiKey, hfind]

/-! ## Concrete fixtures used by closed theorems and witnesses -/

/-- A venue owned by tenant `t1` that accepts requests. -/
def fixVenue : Venue :=
  { id := "v1", customerProfileId := "t1", openkjVenueId := 1,
    name := "The Spot", urlName := "the-spot", address := "1 Main St",
    city := "Sioux Falls", state := "SD", postalCode := "57101",
    country := "USA", phoneNumber := none, website := none,
    acceptingRequests := true }

/-- An already-processed request sitting in venue `v1`. -/
def fixProcessedRequest : Request :=
  { id := 7, venueId := "v1", singerProfileId := none,
    submittedByUserId := none, artist := "Queen", title := "Bohemian Rhapsody",
    keyChange := 0, notes := none, processed := true, processedAt := some 100,
    requestedAt := 50 }

/-- A store holding `fixVenue` and `fixProcessedRequest`. -/
def c1Store : Store :=
  { venues := [fixVenue], systems := [], songs := [],
    requests := [fixProcessedRequest], history := [], events := [],
    nextId := 8, now := 200 }

/-- C1: the claim states that after every update `processed=true` implies a
non-null `processedAt`, and in particular that a notes-only update
preserves the invariant for an already-processed request.  The code
violates this: `updateRequest` computes
`processedAt: data.processed ? new Date() : null`, so an update supplying
only `notes` (with `processed` absent, hence falsy) leaves `processed`
unchanged at `true` (Prisma skips `undefined` fields) while writing
`processedAt = null`.  This theorem evaluates the embedded code at the
failing input: the returned and stored row has `processed = true` and
`processedAt = none`. -/
theorem updateRequest_notesOnly_clears_processedAt :
    (updateRequest c1Store "7" "v1" "t1" { processed := none, notes := some "louder" }).1 =
      Except.ok { fixProcessedRequest with notes := some "louder", processedAt := none } ∧
    (updateRequest c1Store "7" "v1" "t1" { processed := none, notes := some "louder" }).2.requests =
      [{ fixProcessedRequest with notes := some "louder", processedAt := none }] ∧
    ({ fixProcessedRequest with notes := some "louder", processedAt := none } : Request).processed = true := by
  decide

/-- C3: creating a Request against an existing Venue whose
`acceptingRequests` flag is false fails with the 403-class
`AuthorizationError('Venue is not accepting requests')` — not a not-found
error — and the store is returned unchanged, so no Request row and no
Singer Request History entry is created. -/
theorem createRequest_closedVenue_authorization_error
    (st : Store) (data : CreateRequestData) (venue : Venue)
    (hfind : st.venues.find? (fun v => v.id == data.venueId) = some venue)
    (hclosed : venue.acceptingRequests = false) :
    createRequest st data =
      (.error (.authorization "Venue is not accepting requests"), st) := by
  simp [createRequest, hfind, hclosed]

/-- A closed venue owned by tenant `t1`. -/
def c3Venue : Venue := { fixVenue with
  id := "v2"
  urlName := "closed-spot"
  acceptingRequests := false }

/-- A store holding only the closed venue. -/
def c3Store : Store :=
  { venues := [c3Venue], systems := [], songs := [], requests := [],
    history := [], events := [], nextId := 1, now := 0 }

/-- Witness for C3 at a concrete closed venue. -/
theorem createRequest_closedVenue_authorization_error_witness :
    c3Store.venues.find?
      (fun v => v.id == ("v2" : String)) = some c3Venue ∧
    createRequest c3Store
      { venueId := "v2", singerProfileId := some "sp1",
        submittedByUserId := none, artist := "Queen",
        title := "Bohemian Rhapsody", keyChange := some 2, notes := none } =
      (.error (.authorization "Venue is not accepting requests"), c3Store) :=
  ⟨by decide,
   createRequest_closedVenue_authorization_error c3Store
     { venueId := "v2", singerProfileId := some "sp1",
       submittedByUserId := none, artist := "Queen",
       title := "Bohemian Rhapsody", keyChange := some 2, notes := none }
     c3Venue (by decide) (by decide)⟩

/-- C7: for a System owned by the tenant, `deleteSystem` with a positive
song count fails with the 409-class `ConflictError` and returns the store
unchanged (the System row remains present and untouched); deletion
succeeds, removing the row, exactly when the song count is zero. -/
theorem deleteSystem_conflict_when_songs_exist
    (st : Store) (systemId tenant : String) (system : SystemRec)
    (hfind : st.systems.find?
      (fun s => s.id == systemId && s.customerProfileId == tenant) = some system) :
    (0 < songCount st tenant system.openkjSystemId →
      deleteSystem st systemId tenant =
        (.error (.conflict ("Cannot delete system with " ++
          toString (songCount st tenant system.openkjSystemId) ++
          " songs. Please delete all songs first.")), st)) ∧
    (songCount st tenant system.openkjSystemId = 0 →
      deleteSystem st systemId tenant =
        (.ok (), { st with systems := st.systems.filter (fun s => s.id != systemId) })) := by
  constructor
  · intro hpos
    simp only [deleteSystem, hfind]
    rw [if_pos hpos]
  · intro hzero
    simp only [deleteSystem, hfind]
    rw [if_neg (by omega)]

/-- A system owned by `t1` with legacy id 5. -/
def c7System : SystemRec :=
  { id := "s1", customerProfileId := "t1", openkjSystemId := 5,
    name := "Main", configuration := [] }

/-- A catalog entry owned by `t1` in legacy system 5. -/
def c7Song : SongDbEntry :=
  { id := 1, customerProfileId := "t1", openkjSystemId := 5,
    artist := "Journey", title := "Dont Stop Believin",
    combined := "Journey - Dont Stop Believin",
    normalizedCombined := "journey dont stop believin" }

/-- A store where system `s1` still owns one song. -/
def c7Store : Store :=
  { venues := [], systems := [c7System], songs := [c7Song], requests := [],
    history := [], events := [], nextId := 2, now := 0 }

/-- Witness for C7: deleting the system that still owns one song fails
with the conflict error and leaves the store unchanged. -/
theorem deleteSystem_conflict_when_songs_exist_witness :
    0 < songCount c7Store "t1" 5 ∧
    deleteSystem c7Store "s1" "t1" =
      (.error (.conflict "Cannot delete system with 1 songs. Please delete all songs first."),
       c7Store) := by
  have h := (deleteSystem_conflict_when_songs_exist c7Store "s1" "t1" c7System
    (by decide)).1 (by decide)
  exact ⟨by decide, h⟩

/-- C9: the token-revocation check fails open — when the Redis read errors,
`isJTIRevoked` catches and returns `false` (token treated as not revoked) —
while `revokeToken` propagates a Redis failure as
`Error('Failed to revoke token')` instead of silently succeeding. -/
theorem refreshToken_failOpen_check_failClosed_revoke
    (redisGet : String → Except String (Option String))
    (redisSetex : String → Nat → String → Except String Unit)
    (jti : String) (expirySeconds : Nat) (emsg₁ emsg₂ : String)
    (hget : redisGet (revocationKey jti) = .error emsg₁)
    (hset : redisSetex (revocationKey jti) expirySeconds "1" = .error emsg₂) :
    isJTIRevoked redisGet jti = false ∧
    revokeToken redisSetex jti expirySeconds = .error "Failed to revoke token" := by
  constructor
  · simp [isJTIRevoked, hget]
  · simp [revokeToken, hset]

/-- Witness for C9 with a Redis client whose calls all reject. -/
theorem refreshToken_failOpen_check_failClosed_revoke_witness :
    isJTIRevoked (fun _ => .error "redis down") "jti1" = false ∧
    revokeToken (fun _ _ _ => .error "redis down") "jti1" 60 =
      .error "Failed to revoke token" :=
  refreshToken_failOpen_check_failClosed_revoke
    (fun _ => .error "redis down") (fun _ _ _ => .error "redis down")
    "jti1" 60 "redis down" "redis down" rfl rfl

/-- C5: the claim states that every state-changing Request operation
notifies the push-notification collaborator with a typed event scoped to
the venue.  The embedded `RequestService` shows the opposite: no branch of
`createRequest`, `updateRequest` or `deleteRequest` appends anything to the
store's outbox of push messages — the outbox after each operation equals
the outbox before it, on every input, so no `request_created`,
`request_updated` or `request_deleted` event is ever emitted (in the
source, `WebSocketService.broadcastToVenue` has no caller in
`RequestService` or its routes). -/
theorem requestService_emits_no_push_events
    (st : Store) (data : CreateRequestData) (requestId venueId tenant : String)
    (upd : UpdateRequestData) :
    (createRequest st data).2.events = st.events ∧
    (updateRequest st requestId venueId tenant upd).2.events = st.events ∧
    (deleteRequest st requestId venueId tenant).2.events = st.events := by
  refine ⟨?_, ?_, ?_⟩
  · unfold createRequest
    split
    · rfl
    · split
      · rfl
      · split
        · rfl
        · rfl
  · unfold updateRequest
    split
    · rfl
    · split
      · rfl
      · split
        · rfl
        · rfl
  · unfold deleteRequest
    split
    · rfl
    · split
      · rfl
      · split
        · rfl
        · rfl

/-- C8 counterexample: the claim asserts `1 ≤ limit ≤ 100` and
`offset ≥ 0` for every input query, including non-numeric values.  On the
concrete query `limit=abc` (and `offset=xyz`), `parseInt` yields `NaN` and
`Math.min`/`Math.max` propagate it, so the parsed value is `NaN`
(modelled `none`) — no number in `[1,100]` at all. -/
theorem parsePaginationParams_nonNumeric_limit_NaN :
    (parsePaginationParams { limit := some "abc", offset := none, cursor := none }).limit = none ∧
    (parsePaginationParams { limit := none, offset := some "xyz", cursor := none }).offset = none := by
  decide

/-- C8 (amended): `hasMore = (returned_count == limit)` with
`nextCursor = String(offset + limit)` exactly when `hasMore`; and whenever
parsing produces a number at all, `limit` lies in `[1,100]` (absent limit
defaulting to 20) and `offset` is nonnegative (absent offset defaulting
to 0) — but a non-numeric `limit`/`offset` string parses to `NaN` rather
than a clamped number. -/
theorem pagination_amended_bounds_and_hasMore :
    (∀ q : QueryShape, ∀ n : Int,
      (parsePaginationParams q).limit = some n → 1 ≤ n ∧ n ≤ 100) ∧
    (∀ q : QueryShape, ∀ n : Int,
      (parsePaginationParams q).offset = some n → 0 ≤ n) ∧
    (∀ q : QueryShape, q.limit = none → (parsePaginationParams q).limit = some 20) ∧
    (∀ q : QueryShape, q.offset = none → (parsePaginationParams q).offset = some 0) ∧
    (∀ (total : Option Nat) (limit offset : Int) (len : Nat),
      (createPaginationInfo total limit offset len).hasMore = ((len : Int) == limit) ∧
      (createPaginationInfo total limit offset len).nextCursor =
        (if ((len : Int) == limit) = true then some (toString (offset + limit)) else none)) := by
  refine ⟨?_, ?_, ?_, ?_, ?_⟩
  · intro q n h
    simp only [parsePaginationParams, jsMinNaN, jsMaxNaN] at h
    cases hp : parseIntJS (jsOrDefault q.limit "20") with
    | none => rw [hp] at h; simp at h
    | some v =>
      rw [hp] at h
      simp only [Option.map] at h
      injection h with h
      subst h
      exact ⟨le_min (le_max_left 1 v) (by norm_num), min_le_right _ _⟩
  · intro q n h
    simp only [parsePaginationParams, jsMinNaN, jsMaxNaN] at h
    cases hp : parseIntJS (jsOrDefault q.offset "0") with
    | none => rw [hp] at h; simp at h
    | some v =>
      rw [hp] at h
      simp only [Option.map] at h
      injection h with h
      subst h
      exact le_max_left 0 v
  · intro q hq
    simp only [parsePaginationParams, jsOrDefault, hq]
    decide
  · intro q hq
    simp only [parsePaginationParams, jsOrDefault, hq]
    decide
  · intro total limit offset len
    exact ⟨rfl, rfl⟩

/-- Witness for the amended C8 at a concrete numeric query. -/
theorem pagination_amended_bounds_and_hasMore_witness :
    (parsePaginationParams { limit := some "50", offset := none, cursor := none }).limit = some 50 ∧
    (1 ≤ (50 : Int) ∧ (50 : Int) ≤ 100) :=
  ⟨by decide,
   pagination_amended_bounds_and_hasMore.1
     { limit := some "50", offset := none, cursor := none } 50 (by decide)⟩

/-- A store with one venue owned by `t1` and no songs or requests. -/
def c10Store : Store :=
  { venues := [fixVenue], systems := [], songs := [], requests := [],
    history := [], events := [], nextId := 1, now := 0 }

/-- C10: the id-taking Catalog Entry and Request operations are not total
over arbitrary id strings: when the id does not parse as an integer, the
`BigInt(id)` conversion throws (modelled `jsError`) before the lookup by
that id, for every store — the caller gets the unclassified low-level
error, not the `NotFoundError` that a well-formed but absent id yields
(final conjunct). -/
theorem malformed_id_bigint_throws_before_lookup
    (st : Store) (badId goodId tenant : String) (upd : UpdateRequestData)
    (hbad : parseBigIntJS badId = none) :
    getSong st badId tenant = (.error (.jsError (bigIntErrorMsg badId)), st) ∧
    deleteSong st badId tenant = (.error (.jsError (bigIntErrorMsg badId)), st) ∧
    (∀ venueId : String,
      (st.venues.find?
        (fun v => v.id == venueId && v.customerProfileId == tenant)).isSome →
      updateRequest st badId venueId tenant upd =
        (.error (.jsError (bigIntErrorMsg badId)), st) ∧
      deleteRequest st badId venueId tenant =
        (.error (.jsError (bigIntErrorMsg badId)), st)) ∧
    (∀ n : Int, parseBigIntJS goodId = some n →
      (∀ s ∈ st.songs, s.id ≠ n) →
      getSong st goodId tenant = (.error (.notFound "Song"), st)) := by
  refine ⟨?_, ?_, ?_, ?_⟩
  · simp [getSong, hbad]
  · simp [deleteSong, hbad]
  · intro venueId hv
    obtain ⟨venue, hvfind⟩ := Option.isSome_iff_exists.mp hv
    constructor
    · simp [updateRequest, hvfind, hbad]
    · simp [deleteRequest, hvfind, hbad]
  · intro n hgood hnone
    have hfind : st.songs.find?
        (fun s => s.id == n && s.customerProfileId == tenant) = none := by
      rw [List.find?_eq_none]
      intro s hs
      simp only [Bool.and_eq_true, beq_iff_eq, not_and]
      intro hid _
      exact absurd hid (hnone s hs)
    simp [getSong, hgood, hfind]

/-- Witness for C10: the malformed id `abc` yields the BigInt syntax error
on `getSong` and `updateRequest` (through an owned venue), while the
well-formed absent id `999` yields `NotFoundError('Song')`. -/
theorem malformed_id_bigint_throws_before_lookup_witness :
    getSong c10Store "abc" "t1" =
      (.error (.jsError (bigIntErrorMsg "abc")), c10Store) ∧
    updateRequest c10Store "abc" "v1" "t1" { processed := some true, notes := none } =
      (.error (.jsError (bigIntErrorMsg "abc")), c10Store) ∧
    getSong c10Store "999" "t1" = (.error (.notFound "Song"), c10Store) := by
  have h := malformed_id_bigint_throws_before_lookup c10Store "abc" "999" "t1"
    { processed := some true, notes := none } (by decide)
  exact ⟨h.1, (h.2.2.1 "v1" (by decide)).1, h.2.2.2 999 (by decide) (by decide)⟩

/-- C4: every get/update/delete on a Venue, System, Catalog Entry or
Request invoked by a tenant that does not own the target returns the
404-class `NotFoundError` with the store unchanged — never success and
never a 403 — and, because the hypotheses cover the absent-resource case
too, the outcome is literally the same value as when the resource does not
exist at all.  Request operations resolve ownership through the venue; the
final conjunct also covers a request reached through a venue the caller
does own but belonging to a different venue. -/
theorem crossTenant_access_returns_notFound
    (st : Store) (venueId systemId songId requestId tenant : String)
    (sid : Int) (vupd : UpdateVenueInput) (supd : UpdateSystemInput)
    (rupd : UpdateRequestData)
    (hv : ∀ v ∈ st.venues, v.id = venueId → v.customerProfileId ≠ tenant)
    (hs : ∀ s ∈ st.systems, s.id = systemId → s.customerProfileId ≠ tenant)
    (hsongid : parseBigIntJS songId = some sid)
    (hsongs : ∀ s ∈ st.songs, s.id = sid → s.customerProfileId ≠ tenant) :
    getVenue st venueId tenant = (.error (.notFound "Venue"), st) ∧
    updateVenue st venueId tenant vupd = (.error (.notFound "Venue"), st) ∧
    deleteVenue st venueId tenant = (.error (.notFound "Venue"), st) ∧
    getSystem st systemId tenant = (.error (.notFound "System"), st) ∧
    updateSystem st systemId tenant supd = (.error (.notFound "System"), st) ∧
    deleteSystem st systemId tenant = (.error (.notFound "System"), st) ∧
    getSong st songId tenant = (.error (.notFound "Song"), st) ∧
    deleteSong st songId tenant = (.error (.notFound "Song"), st) ∧
    updateRequest st requestId venueId tenant rupd = (.error (.notFound "Venue"), st) ∧
    deleteRequest st requestId venueId tenant = (.error (.notFound "Venue"), st) ∧
    (∀ (ownedVenueId : String) (rid : Int),
      (st.venues.find?
        (fun v => v.id == ownedVenueId && v.customerProfileId == tenant)).isSome →
      parseBigIntJS requestId = some rid →
      (∀ r ∈ st.requests, r.id = rid → r.venueId ≠ ownedVenueId) →
      updateRequest st requestId ownedVenueId tenant rupd =
        (.error (.notFound "Request"), st) ∧
      deleteRequest st requestId ownedVenueId tenant =
        (.error (.notFound "Request"), st)) := by
  have hvf : st.venues.find?
      (fun v => v.id == venueId && v.customerProfileId == tenant) = none := by
    rw [List.find?_eq_none]
    intro v hvm
    simp only [Bool.and_eq_true, beq_iff_eq, not_and]
    exact hv v hvm
  have hsf : st.systems.find?
      (fun s => s.id == systemId && s.customerProfileId == tenant) = none := by
    rw [List.find?_eq_none]
    intro s hsm
    simp only [Bool.and_eq_true, beq_iff_eq, not_and]
    exact hs s hsm
  have hsongf : st.songs.find?
      (fun s => s.id == sid && s.customerProfileId == tenant) = none := by
    rw [List.find?_eq_none]
    intro s hsm
    simp only [Bool.and_eq_true, beq_iff_eq, not_and]
    exact hsongs s hsm
  refine ⟨?_, ?_, ?_, ?_, ?_, ?_, ?_, ?_, ?_, ?_, ?_⟩
  · simp [getVenue, hvf]
  · simp [updateVenue, hvf]
  · simp [deleteVenue, hvf]
  · simp [getSystem, hsf]
  · simp [updateSystem, hsf]
  · simp [deleteSystem, hsf]
  · simp [getSong, hsongid, hsongf]
  · simp [deleteSong, hsongid, hsongf]
  · simp [updateRequest, hvf]
  · simp [deleteRequest, hvf]
  · intro ownedVenueId rid hov hrid hreq
    obtain ⟨venue, hovfind⟩ := Option.isSome_iff_exists.mp hov
    have hrf : st.requests.find?
        (fun r => r.id == rid && r.venueId == ownedVenueId) = none := by
      rw [List.find?_eq_none]
      intro r hrm
      simp only [Bool.and_eq_true, beq_iff_eq, not_and]
      exact hreq r hrm
    constructor
    · simp [updateRequest, hovfind, hrid, hrf]
    · simp [deleteRequest, hovfind, hrid, hrf]

/-- A victim catalog entry owned by tenant `t1`. -/
def c4Song : SongDbEntry := { c7Song with id := 9 }

/-- A victim request sitting in `t1`'s venue `v1`. -/
def c4Request : Request := { fixProcessedRequest with id := 4 }

/-- A store where every resource belongs to tenant `t1`; the witness
accesses it as tenant `t2`. -/
def c4Store : Store :=
  { venues := [fixVenue], systems := [c7System], songs := [c4Song],
    requests := [c4Request], history := [], events := [], nextId := 10,
    now := 0 }

/-- Witness for C4: tenant `t2` touching `t1`'s venue, system, song and
request gets `NotFoundError` everywhere with the store unchanged. -/
theorem crossTenant_access_returns_notFound_witness :
    getVenue c4Store "v1" "t2" = (.error (.notFound "Venue"), c4Store) ∧
    deleteSystem c4Store "s1" "t2" = (.error (.notFound "System"), c4Store) ∧
    getSong c4Store "9" "t2" = (.error (.notFound "Song"), c4Store) ∧
    updateRequest c4Store "4" "v1" "t2" { processed := some true, notes := none } =
      (.error (.notFound "Venue"), c4Store) := by
  have h := crossTenant_access_returns_notFound c4Store "v1" "s1" "9" "4" "t2" 9
    { name := none, address := none, city := none, state := none,
      postalCode := none, country := none, phoneNumber := none,
      website := none, acceptingRequests := none }
    { name := none, configuration := none }
    { processed := some true, notes := none }
    (by decide) (by decide) (by decide) (by decide)
  exact ⟨h.1, h.2.2.2.2.2.1, h.2.2.2.2.2.2.1, h.2.2.2.2.2.2.2.2.1⟩

/-- `toBatches` of the empty list. -/
theorem toBatches_nil {α : Type} : toBatches ([] : List α) = [] := by
  rw [toBatches]
  rfl

/-- A two-element list forms a single batch (the source batch size
is 100). -/
theorem toBatches_pair {α : Type} (a b : α) : toBatches [a, b] = [[a, b]] := by
  rw [toBatches]
  rw [List.take_of_length_le (by simp), List.drop_eq_nil_of_le (by simp)]
  rw [toBatches_nil]
  simp

/-- When no entry in the (tenant, system) shares the song's normalized
form, the import step inserts the song and counts it imported. -/
theorem importOne_insert (customerProfileId : String) (openkjSystemId : Int)
    (st : Store) (song : ImportSongInput) (imported skipped errors : Nat)
    (h : st.songs.find?
      (fun s => s.customerProfileId == customerProfileId &&
                s.openkjSystemId == openkjSystemId &&
                s.normalizedCombined ==
                  normalizeSongName (song.artist ++ " - " ++ song.title)) = none) :
    importOne customerProfileId openkjSystemId (st, imported, skipped, errors) song =
      ({ st with
          songs := st.songs ++
            [{ id := st.nextId, customerProfileId := customerProfileId,
               openkjSystemId := openkjSystemId, artist := song.artist,
               title := song.title,
               combined := song.artist ++ " - " ++ song.title,
               normalizedCombined :=
                 normalizeSongName (song.artist ++ " - " ++ song.title) }]
          nextId := st.nextId + 1 }, imported + 1, skipped, errors) := by
  simp [importOne, h]

/-- When some entry in the (tenant, system) already has the song's
normalized form, the import step skips the song. -/
theorem importOne_skip (customerProfileId : String) (openkjSystemId : Int)
    (st : Store) (song : ImportSongInput) (imported skipped errors : Nat)
    (e : SongDbEntry)
    (h : st.songs.find?
      (fun s => s.customerProfileId == customerProfileId &&
                s.openkjSystemId == openkjSystemId &&
                s.normalizedCombined ==
                  normalizeSongName (song.artist ++ " - " ++ song.title)) = some e) :
    importOne customerProfileId openkjSystemId (st, imported, skipped, errors) song =
      (st, imported, skipped + 1, errors) := by
  simp [importOne, h]

/-- C2: when two import songs have the same normalized combined form —
lowercased, stripped of characters outside `[a-z0-9\s]`, whitespace-
collapsed and trimmed — and the (tenant, system) has no entry with that
form yet, bulk-importing both stores exactly one new entry carrying the
first-seen artist and title, counts the second song as skipped, and
reports `imported = 1`. -/
theorem bulkImportSongs_dedup_skips_second
    (st : Store) (customerProfileId : String) (sysId : Int)
    (system : SystemRec) (s1 s2 : ImportSongInput)
    (hsys : st.systems.find?
      (fun s => s.customerProfileId == customerProfileId &&
                s.openkjSystemId == sysId) = some system)
    (hnorm : normalizeSongName (s2.artist ++ " - " ++ s2.title) =
             normalizeSongName (s1.artist ++ " - " ++ s1.title))
    (hfresh : ∀ e ∈ st.songs, e.customerProfileId = customerProfileId →
        e.openkjSystemId = sysId →
        e.normalizedCombined ≠ normalizeSongName (s1.artist ++ " - " ++ s1.title)) :
    bulkImportSongs st customerProfileId { openkjSystemId := sysId, songs := [s1, s2] } =
      (.ok { imported := 1, skipped := 1, errors := 0 },
       { st with
          songs := st.songs ++
            [{ id := st.nextId, customerProfileId := customerProfileId,
               openkjSystemId := sysId, artist := s1.artist, title := s1.title,
               combined := s1.artist ++ " - " ++ s1.title,
               normalizedCombined :=
                 normalizeSongName (s1.artist ++ " - " ++ s1.title) }]
          nextId := st.nextId + 1 }) := by
  have hn1 : st.songs.find?
      (fun s => s.customerProfileId == customerProfileId &&
                s.openkjSystemId == sysId &&
                s.normalizedCombined ==
                  normalizeSongName (s1.artist ++ " - " ++ s1.title)) = none := by
    rw [List.find?_eq_none]
    intro e he
    simp only [Bool.and_eq_true, beq_iff_eq, not_and]
    rintro ⟨h1, h2⟩
    exact hfresh e he h1 h2
  have hfind2 : (st.songs ++
      [({ id := st.nextId, customerProfileId := customerProfileId,
          openkjSystemId := sysId, artist := s1.artist, title := s1.title,
          combined := s1.artist ++ " - " ++ s1.title,
          normalizedCombined :=
            normalizeSongName (s1.artist ++ " - " ++ s1.title) } : SongDbEntry)]).find?
        (fun s => s.customerProfileId == customerProfileId &&
                  s.openkjSystemId == sysId &&
                  s.normalizedCombined ==
                    normalizeSongName (s2.artist ++ " - " ++ s2.title)) =
      some { id := st.nextId, customerProfileId := customerProfileId,
             openkjSystemId := sysId, artist := s1.artist, title := s1.title,
             combined := s1.artist ++ " - " ++ s1.title,
             normalizedCombined :=
               normalizeSongName (s1.artist ++ " - " ++ s1.title) } := by
    rw [hnorm, find?_append_of_none hn1]
    simp [List.find?]
  simp only [bulkImportSongs, hsys]
  rw [toBatches_pair]
  simp only [List.foldl_cons, List.foldl_nil]
  rw [importOne_insert customerProfileId sysId st s1 0 0 0 hn1]
  rw [importOne_skip customerProfileId sysId _ s2 1 0 0 _ hfind2]

/-- A store holding only the system with legacy id 5, owned by `t1`. -/
def c2Store : Store :=
  { venues := [], systems := [c7System], songs := [], requests := [],
    history := [], events := [], nextId := 1, now := 0 }

/-- Witness for C2: two spellings of the same song — differing in case,
punctuation and internal whitespace — import as one stored entry with the
first-seen casing, one skip, one import. -/
theorem bulkImportSongs_dedup_skips_second_witness :
    bulkImportSongs c2Store "t1"
      { openkjSystemId := 5,
        songs := [{ artist := "Journey", title := "Dont Stop Believin" },
                  { artist := "journey", title := "DONT  STOP  BELIEVIN!!" }] } =
      (.ok { imported := 1, skipped := 1, errors := 0 },
       { c2Store with
          songs := c2Store.songs ++
            [{ id := c2Store.nextId, customerProfileId := "t1",
               openkjSystemId := 5, artist := "Journey",
               title := "Dont Stop Believin",
               combined := "Journey" ++ " - " ++ "Dont Stop Believin",
               normalizedCombined :=
                 normalizeSongName ("Journey" ++ " - " ++ "Dont Stop Believin") }]
          nextId := c2Store.nextId + 1 }) :=
  bulkImportSongs_dedup_skips_second c2Store "t1" 5 c7System
    { artist := "Journey", title := "Dont Stop Believin" }
    { artist := "journey", title := "DONT  STOP  BELIEVIN!!" }
    (by decide) (by decide) (by decide)

/-- C6: once `revokeApiKey` succeeds, every row with the revoked id has
status `revoked`; when the key's digest identifies only that row and every
later registry operation generates fresh key material (a distinct digest),
`verifyApiKey` on the key's plaintext stays `valid = false` through any
sequence of further create/revoke/verify/read operations — nothing
restores it.  Moreover (last conjunct, for arbitrary stores and candidate
strings, malformed ones included) verification returns `valid = true`
exactly when some stored row both matches the candidate's digest and has
status `active`; in every other case the total function returns
`valid = false` rather than raising. -/
theorem verifyApiKey_active_only_and_revoke_permanent
    (sha : String → String) (keys keys₁ : List ApiKeyRec)
    (apiKeyId tenant plaintext : String) (now : Nat) (ops : List ApiKeyOp)
    (hrev : revokeApiKey keys apiKeyId tenant now = (Except.ok (), keys₁))
    (hhash : ∀ k ∈ keys, k.apiKeyHash = sha plaintext → k.id = apiKeyId)
    (hops : ∀ op ∈ ops, opAvoidsHash sha (sha plaintext) op = true) :
    (∀ k ∈ keys₁, k.id = apiKeyId → k.status = "revoked") ∧
    (∀ now₂ : Nat,
      (verifyApiKey sha (applyApiKeyOps sha keys₁ ops) plaintext now₂).1.valid = false) ∧
    (∀ (keys' : List ApiKeyRec) (candidate : String) (now₃ : Nat),
      ((verifyApiKey sha keys' candidate now₃).1.valid = true ↔
        ∃ k ∈ keys', k.apiKeyHash = sha candidate ∧ k.status = "active")) := by
  have hkeys₁ : keys₁ = keys.map (fun k =>
      if k.id == apiKeyId then { k with status := "revoked", revokedAt := some now } else k) := by
    unfold revokeApiKey at hrev
    cases hfind : keys.find?
        (fun k => k.id == apiKeyId && k.customerProfileId == tenant) with
    | none => rw [hfind] at hrev; simp at hrev
    | some found =>
      rw [hfind] at hrev
      simp only [Prod.mk.injEq] at hrev
      exact hrev.2.symm
  subst hkeys₁
  refine ⟨?_, ?_, ?_⟩
  · intro k hk hid
    simp only [List.mem_map] at hk
    obtain ⟨k₀, hk₀, hk₀eq⟩ := hk
    by_cases hc : (k₀.id == apiKeyId) = true
    · rw [if_pos hc] at hk₀eq
      subst hk₀eq
      rfl
    · rw [if_neg hc] at hk₀eq
      subst hk₀eq
      exact absurd hid (by simpa using hc)
  · intro now₂
    apply verify_false_of_noActiveHash
    apply noActiveHash_applyOps hops
    intro k hk hhsh
    simp only [List.mem_map] at hk
    obtain ⟨k₀, hk₀, hk₀eq⟩ := hk
    by_cases hc : (k₀.id == apiKeyId) = true
    · rw [if_pos hc] at hk₀eq
      subst hk₀eq
      intro hst
      simp at hst
    · rw [if_neg hc] at hk₀eq
      subst hk₀eq
      exact absurd (hhash k₀ hk₀ hhsh) (by simpa using hc)
  · intro keys' candidate now₃
    constructor
    · intro hvalid
      cases hfind : keys'.find?
          (fun k => k.apiKeyHash == sha candidate && k.status == "active") with
      | none => simp [verifyApiKey, hfind] at hvalid
      | some found =>
        have hmem := List.mem_of_find?_eq_some hfind
        have hpred := List.find?_some hfind
        simp only [Bool.and_eq_true, beq_iff_eq] at hpred
        exact ⟨found, hmem, hpred.1, hpred.2⟩
    · rintro ⟨k, hk, hhsh, hst⟩
      cases hfind : keys'.find?
          (fun k => k.apiKeyHash == sha candidate && k.status == "active") with
      | some found => simp [verifyApiKey, hfind]
      | none =>
        rw [List.find?_eq_none] at hfind
        have hp : (k.apiKeyHash == sha candidate && k.status == "active") = true := by
          simp [hhsh, hst]
        exact absurd hp (hfind k hk)

/-- A stand-in for the SHA-256 hex digest, injective on the inputs the
witness uses. -/
def c6sha : String → String := fun s => "sha256:" ++ s

/-- A store with one active key for tenant `t1`, hashed from plaintext
`sk_r1`. -/
def c6keys : List ApiKeyRec :=
  [{ id := "k1", customerProfileId := "t1", createdByUserId := "u1",
     description := "legacy sync", apiKeyHash := "sha256:sk_r1",
     status := "active", lastUsedAt := none, revokedAt := none,
     createdAt := 0 }]

/-- The key store after revoking `k1` at time 5. -/
def c6keysAfter : List ApiKeyRec :=
  [{ id := "k1", customerProfileId := "t1", createdByUserId := "u1",
     description := "legacy sync", apiKeyHash := "sha256:sk_r1",
     status := "revoked", lastUsedAt := none, revokedAt := some 5,
     createdAt := 0 }]

/-- Later registry activity: a fresh key for another tenant, a failed
verification attempt, a read. -/
def c6ops : List ApiKeyOp :=
  [.create "t2" "second key" "u2" "k2" "r2" 6, .verify "sk_zzz" 7, .read]

/-- Witness for C6: after revoking `k1`, verification of its plaintext
`sk_r1` still fails after a later create/verify/read sequence. -/
theorem verifyApiKey_active_only_and_revoke_permanent_witness :
    revokeApiKey c6keys "k1" "t1" 5 = (Except.ok (), c6keysAfter) ∧
    (verifyApiKey c6sha (applyApiKeyOps c6sha c6keysAfter c6ops) "sk_r1" 9).1.valid = false := by
  have h := verifyApiKey_active_only_and_revoke_permanent c6sha c6keys c6keysAfter
    "k1" "t1" "sk_r1" 5 c6ops (by decide) (by decide) (by decide)
  exact ⟨by decide, h.2.1 9⟩

end Singr
